import Mathlib

/-!
Verification of `src/vulkan/tools/vkinfo.cpp` (a diagnostic utility that
enumerates Vulkan capabilities and prints a report).  The definitions below
are a shallow embedding of that file: the Vulkan runtime is modelled as a
script of responses (one per runtime call), the C structs become Lean
structures, and every function of the program becomes a Lean function with
the same name.  Fatal errors (`die`) become `Except` errors carrying the
exact diagnostic line the program writes to stderr.
-/

set_option maxHeartbeats 1000000
set_option maxRecDepth 20000

/-- Embedding of the `VkResult` status codes that `die` in vkinfo.cpp names,
plus `other` for every remaining integer code (the `default:` branch). -/
inductive VkResult where
  | VK_SUCCESS
  | VK_NOT_READY
  | VK_TIMEOUT
  | VK_EVENT_SET
  | VK_EVENT_RESET
  | VK_INCOMPLETE
  | VK_ERROR_OUT_OF_HOST_MEMORY
  | VK_ERROR_OUT_OF_DEVICE_MEMORY
  | VK_ERROR_INITIALIZATION_FAILED
  | VK_ERROR_DEVICE_LOST
  | VK_ERROR_MEMORY_MAP_FAILED
  | VK_ERROR_LAYER_NOT_PRESENT
  | VK_ERROR_EXTENSION_NOT_PRESENT
  | VK_ERROR_INCOMPATIBLE_DRIVER
  | other (code : Int)
deriving DecidableEq, Repr, Inhabited

/-- Numeric value of each status code (from `vulkan.h`). -/
def vkResultCode : VkResult → Int
  | .VK_SUCCESS => 0
  | .VK_NOT_READY => 1
  | .VK_TIMEOUT => 2
  | .VK_EVENT_SET => 3
  | .VK_EVENT_RESET => 4
  | .VK_INCOMPLETE => 5
  | .VK_ERROR_OUT_OF_HOST_MEMORY => -1
  | .VK_ERROR_OUT_OF_DEVICE_MEMORY => -2
  | .VK_ERROR_INITIALIZATION_FAILED => -3
  | .VK_ERROR_DEVICE_LOST => -4
  | .VK_ERROR_MEMORY_MAP_FAILED => -5
  | .VK_ERROR_LAYER_NOT_PRESENT => -6
  | .VK_ERROR_EXTENSION_NOT_PRESENT => -7
  | .VK_ERROR_INCOMPATIBLE_DRIVER => -9
  | .other c => c

/-- Human-readable status name, exactly the `switch` in `die` (vkinfo.cpp
lines 52-70), with its `default:` fallback. -/
def vkResultStr : VkResult → String
  | .VK_SUCCESS => "VK_SUCCESS"
  | .VK_NOT_READY => "VK_NOT_READY"
  | .VK_TIMEOUT => "VK_TIMEOUT"
  | .VK_EVENT_SET => "VK_EVENT_SET"
  | .VK_EVENT_RESET => "VK_EVENT_RESET"
  | .VK_INCOMPLETE => "VK_INCOMPLETE"
  | .VK_ERROR_OUT_OF_HOST_MEMORY => "VK_ERROR_OUT_OF_HOST_MEMORY"
  | .VK_ERROR_OUT_OF_DEVICE_MEMORY => "VK_ERROR_OUT_OF_DEVICE_MEMORY"
  | .VK_ERROR_INITIALIZATION_FAILED => "VK_ERROR_INITIALIZATION_FAILED"
  | .VK_ERROR_DEVICE_LOST => "VK_ERROR_DEVICE_LOST"
  | .VK_ERROR_MEMORY_MAP_FAILED => "VK_ERROR_MEMORY_MAP_FAILED"
  | .VK_ERROR_LAYER_NOT_PRESENT => "VK_ERROR_LAYER_NOT_PRESENT"
  | .VK_ERROR_EXTENSION_NOT_PRESENT => "VK_ERROR_EXTENSION_NOT_PRESENT"
  | .VK_ERROR_INCOMPATIBLE_DRIVER => "VK_ERROR_INCOMPATIBLE_DRIVER"
  | .other _ => "<unknown VkResult>"

/-- Diagnostic line written by `die` (vkinfo.cpp line 71):
`fprintf(stderr, "%s failed: %s (%d)\n", proc, result_str, result)`. -/
def dieLine (proc : String) (result : VkResult) : String :=
  proc ++ " failed: " ++ vkResultStr result ++ " (" ++ toString (vkResultCode result) ++ ")\n"

-- Data model (the C structs, restricted to the fields vkinfo reads).

/-- Embedding of `VkExtensionProperties` (`extensionName`, `specVersion`). -/
structure VkExtensionProperties where
  extensionName : String
  specVersion : Nat
deriving DecidableEq, Repr, Inhabited

/-- Embedding of `VkLayerProperties` (the fields vkinfo prints). -/
structure VkLayerProperties where
  layerName : String
  specVersion : Nat
  implementationVersion : Nat
  description : String
deriving DecidableEq, Repr, Inhabited

/-- Embedding of `VkExtent3D`. -/
structure VkExtent3D where
  width : Nat
  height : Nat
  depth : Nat
deriving DecidableEq, Repr, Inhabited

/-- Embedding of `VkQueueFamilyProperties`. -/
structure VkQueueFamilyProperties where
  queueFlags : Nat
  queueCount : Nat
  timestampValidBits : Nat
  minImageTransferGranularity : VkExtent3D
deriving DecidableEq, Repr, Inhabited

/-- Embedding of `VkMemoryHeap` (`size` is a `uint64_t` byte count). -/
structure VkMemoryHeap where
  size : Nat
  flags : Nat
deriving DecidableEq, Repr, Inhabited

/-- Embedding of `VkMemoryType`. -/
structure VkMemoryType where
  propertyFlags : Nat
  heapIndex : Nat
deriving DecidableEq, Repr, Inhabited

/-- Embedding of `VkPhysicalDeviceMemoryProperties`; the C counts
`memoryTypeCount` / `memoryHeapCount` are the list lengths. -/
structure VkPhysicalDeviceMemoryProperties where
  memoryTypes : List VkMemoryType
  memoryHeaps : List VkMemoryHeap
deriving DecidableEq, Repr, Inhabited

/-- Embedding of `VkPhysicalDeviceProperties`, restricted to the fields
vkinfo prints. -/
structure VkPhysicalDeviceProperties where
  apiVersion : Nat
  driverVersion : Nat
  vendorID : Nat
  deviceID : Nat
  deviceType : Nat
  deviceName : String
deriving DecidableEq, Repr, Inhabited

/-- Embedding of `VkPhysicalDeviceFeatures`: a block of boolean feature
flags that vkinfo only copies from the query into `vkCreateDevice`. -/
structure VkPhysicalDeviceFeatures where
  flags : List Bool
deriving DecidableEq, Repr, Inhabited

/-- Embedding of `struct GpuInfo` (vkinfo.cpp lines 32-40). -/
structure GpuInfo where
  properties : VkPhysicalDeviceProperties
  memory : VkPhysicalDeviceMemoryProperties
  features : VkPhysicalDeviceFeatures
  queue_families : List VkQueueFamilyProperties
  extensions : List VkExtensionProperties
  layers : List VkLayerProperties
  layer_extensions : List (List VkExtensionProperties)
deriving DecidableEq, Repr, Inhabited

/-- Embedding of `struct VulkanInfo` (vkinfo.cpp lines 41-46). -/
structure VulkanInfo where
  extensions : List VkExtensionProperties
  layers : List VkLayerProperties
  layer_extensions : List (List VkExtensionProperties)
  gpus : List GpuInfo
deriving DecidableEq, Repr, Inhabited

-- Buffers and the simulated runtime.

/-- Model of `std::vector::resize`: keep the first `n` elements, pad with
default-constructed elements up to length `n`. -/
def resizeBuf {α : Type} [Inhabited α] (buf : List α) (n : Nat) : List α :=
  buf.take n ++ List.replicate (n - buf.length) default

/-- Model of the runtime filling an output array: the reported `data` is
written over the front of the buffer, the rest of the buffer is unchanged,
and the buffer never grows. -/
def writeBuf {α : Type} (buf data : List α) : List α :=
  data.take buf.length ++ buf.drop (min data.length buf.length)

/-- One response of the simulated runtime to an enumeration call: the
returned status, the value it stores through the count pointer, and the
elements it writes into the output array. -/
structure Resp (α : Type) where
  result : VkResult
  count : Nat
  data : List α
deriving DecidableEq, Repr, Inhabited

/-- Script of runtime responses for one enumeration entry point: the
response to the initial count query (status and count), then one response
per data fetch, consumed in order. -/
structure EnumScript (α : Type) where
  countResp : VkResult × Nat
  fetchResps : List (Resp α)
deriving Repr, Inhabited

/-- Abnormal outcomes of the gathering phase.  `die` carries the stderr
line that the vkinfo `die` writes before `exit(1)`; `hang` marks a script too short
for the retry loop, i.e. a run on which the C loop would keep calling the
runtime forever. -/
inductive Abort where
  | die (line : String)
  | hang
deriving DecidableEq, Repr

/-- Embedding of the `do { resize(count); result = fetch(...); } while
(result == VK_INCOMPLETE)` loop shared by all enumeration call sites of
vkinfo.cpp.  `buf` is the vector just before the `resize` of the current
iteration; each iteration consumes one scripted response. -/
def retryFetch {α : Type} [Inhabited α] : List (Resp α) → List α → Option (VkResult × List α)
  | [], _ => none
  | r :: rest, buf =>
    let buf' := writeBuf buf r.data
    if r.result = VkResult.VK_INCOMPLETE then
      retryFetch rest (resizeBuf buf' r.count)
    else
      some (r.result, buf')

/-- Embedding of the full enumeration pattern of vkinfo.cpp (count query,
die unless `VK_SUCCESS`, retry loop, die unless final `VK_SUCCESS`), as in
`EnumerateInstanceExtensions` lines 83-99 and its clones. -/
def enumerateWithRetry {α : Type} [Inhabited α] (proc : String) (s : EnumScript α) :
    Except Abort (List α) :=
  if s.countResp.1 ≠ VkResult.VK_SUCCESS then
    .error (.die (dieLine (proc ++ " (count)") s.countResp.1))
  else
    match retryFetch s.fetchResps (resizeBuf [] s.countResp.2) with
    | none => .error .hang
    | some (r, buf) =>
      if r ≠ VkResult.VK_SUCCESS then .error (.die (dieLine (proc ++ " (data)") r))
      else .ok buf

/-- Script for `vkGetPhysicalDeviceQueueFamilyProperties`, which returns
`void`: the count stored by the initial count query, then one response per
data call (its `result` field is what the runtime would have reported had
the call had a status; the C signature discards it). -/
structure QFScript where
  count0 : Nat
  resps : List (Resp VkQueueFamilyProperties)
deriving Repr, Inhabited

/-- Embedding of the queue-family gathering in `GatherGpuInfo` (vkinfo.cpp
lines 127-130): one count query, one `resize`, one data fetch - no status
check and no retry loop. -/
def GatherQueueFamilies (s : QFScript) : List VkQueueFamilyProperties :=
  let buf := resizeBuf ([] : List VkQueueFamilyProperties) s.count0
  match s.resps with
  | [] => buf
  | r :: _ => writeBuf buf r.data

/-- Follows the words of the spec, not the source (for comparison with
`GatherQueueFamilies`): "query required-size, allocate a buffer of that
size, query again, and repeat the fetch while the runtime reports the
buffer as still undersized ... this pattern is reused identically for
every enumeration call (extensions, layers, physical devices, queue
families)" - i.e. the `retryFetch` pattern applied to the queue-family
query. -/
def GatherQueueFamiliesRetrySpec (s : QFScript) : Option (List VkQueueFamilyProperties) :=
  (retryFetch s.resps (resizeBuf ([] : List VkQueueFamilyProperties) s.count0)).map (fun p => p.2)

/-- Embedding of `HasExtension` (vkinfo.cpp lines 75-81). -/
def HasExtension (extensions : List VkExtensionProperties) (name : String) : Bool :=
  extensions.any (fun prop => prop.extensionName = name)

/-- The allow-list filtering done in `GatherInfo`/`GatherGpuInfo` (vkinfo.cpp
lines 150-161 and 207-219): keep each desired extension that is present in
the base list or in the list of any layer, in the order of the allow-list. -/
def enabledExtensions (base : List VkExtensionProperties)
    (layerExts : List (List VkExtensionProperties)) (desired : List String) : List String :=
  desired.filter (fun d => HasExtension base d || layerExts.any (fun le => HasExtension le d))

/-- Desired instance extensions (`VK_EXT_DEBUG_REPORT_EXTENSION_NAME`). -/
def kDesiredInstanceExtensions : List String := ["VK_EXT_debug_report"]

/-- Desired device extensions (`VK_KHR_SWAPCHAIN_EXTENSION_NAME`). -/
def kDesiredDeviceExtensions : List String := ["VK_KHR_swapchain"]

/-- Sequential `Except`-valued map, the meaning of the `for` loops that
fill `layer_extensions[i]` and `info->gpus.at(i)` entry by entry. -/
def mapExcept {α β ε : Type} (f : α → Except ε β) : List α → Except ε (List β)
  | [] => .ok []
  | x :: xs => (f x).bind fun y => (mapExcept f xs).bind fun ys => .ok (y :: ys)

/-- The simulated Vulkan runtime: one response script per runtime entry
point vkinfo calls.  Physical devices are identified by `Nat` handles. -/
structure Runtime where
  instanceLayers : EnumScript VkLayerProperties
  instanceExtensions : Option String → EnumScript VkExtensionProperties
  createInstance : List String → VkResult
  physicalDevices : EnumScript Nat
  gpuProperties : Nat → VkPhysicalDeviceProperties
  gpuMemory : Nat → VkPhysicalDeviceMemoryProperties
  gpuFeatures : Nat → VkPhysicalDeviceFeatures
  gpuQueueFamilies : Nat → QFScript
  deviceLayers : Nat → EnumScript VkLayerProperties
  deviceExtensions : Nat → Option String → EnumScript VkExtensionProperties
  createDevice : Nat → List String → VkPhysicalDeviceFeatures → VkResult

/-- Embedding of `EnumerateInstanceExtensions` (vkinfo.cpp lines 83-99);
`layer_name` is the `nullptr`-or-layer-name argument. -/
def EnumerateInstanceExtensions (rt : Runtime) (layer_name : Option String) :
    Except Abort (List VkExtensionProperties) :=
  enumerateWithRetry "vkEnumerateInstanceExtensionProperties" (rt.instanceExtensions layer_name)

/-- Embedding of `EnumerateDeviceExtensions` (vkinfo.cpp lines 101-117). -/
def EnumerateDeviceExtensions (rt : Runtime) (gpu : Nat) (layer_name : Option String) :
    Except Abort (List VkExtensionProperties) :=
  enumerateWithRetry "vkEnumerateDeviceExtensionProperties" (rt.deviceExtensions gpu layer_name)

/-- Embedding of `GatherGpuInfo` (vkinfo.cpp lines 119-183). -/
def GatherGpuInfo (rt : Runtime) (gpu : Nat) : Except Abort GpuInfo :=
  let properties := rt.gpuProperties gpu
  let memory := rt.gpuMemory gpu
  let features := rt.gpuFeatures gpu
  let queue_families := GatherQueueFamilies (rt.gpuQueueFamilies gpu)
  (enumerateWithRetry "vkEnumerateDeviceLayerProperties" (rt.deviceLayers gpu)).bind fun layers =>
  (EnumerateDeviceExtensions rt gpu none).bind fun extensions =>
  (mapExcept (fun l => EnumerateDeviceExtensions rt gpu (some l.layerName)) layers).bind
    fun layer_extensions =>
  let enabled := enabledExtensions extensions layer_extensions kDesiredDeviceExtensions
  if rt.createDevice gpu enabled features ≠ VkResult.VK_SUCCESS then
    .error (.die (dieLine "vkCreateDevice" (rt.createDevice gpu enabled features)))
  else
    .ok ⟨properties, memory, features, queue_families, extensions, layers, layer_extensions⟩

/-- Embedding of `GatherInfo` (vkinfo.cpp lines 185-248). -/
def GatherInfo (rt : Runtime) : Except Abort VulkanInfo :=
  (enumerateWithRetry "vkEnumerateInstanceLayerProperties" rt.instanceLayers).bind fun layers =>
  (EnumerateInstanceExtensions rt none).bind fun extensions =>
  (mapExcept (fun l => EnumerateInstanceExtensions rt (some l.layerName)) layers).bind
    fun layer_extensions =>
  let enabled := enabledExtensions extensions layer_extensions kDesiredInstanceExtensions
  if rt.createInstance enabled ≠ VkResult.VK_SUCCESS then
    .error (.die (dieLine "vkCreateInstance" (rt.createInstance enabled)))
  else
    (enumerateWithRetry "vkEnumeratePhysicalDevices" rt.physicalDevices).bind fun gpus =>
    (mapExcept (GatherGpuInfo rt) gpus).bind fun gpuInfos =>
    .ok ⟨extensions, layers, layer_extensions, gpuInfos⟩

-- Report rendering (vkinfo.cpp lines 252-403).

/-- Embedding of `ExtractMajorVersion` (vkinfo.cpp lines 252-254). -/
def ExtractMajorVersion (version : Nat) : Nat :=
  (version >>> 22) &&& 0x3FF

/-- Embedding of `ExtractMinorVersion` (vkinfo.cpp lines 255-257). -/
def ExtractMinorVersion (version : Nat) : Nat :=
  (version >>> 12) &&& 0x3FF

/-- Embedding of `ExtractPatchVersion` (vkinfo.cpp lines 258-260). -/
def ExtractPatchVersion (version : Nat) : Nat :=
  (version >>> 0) &&& 0xFFF

/-- Modelled from the spec: the 10/10/12-bit version packing that produces
the packed 32-bit version word the extractors take apart (the
`VK_MAKE_VERSION` macro lives in the Vulkan headers, not under src/; for
in-range fields its or-of-disjoint-shifted-fields equals this sum). -/
def makeVersion (major minor patch : Nat) : Nat :=
  major * 2 ^ 22 + minor * 2 ^ 12 + patch

/-- The `VK_PHYSICAL_DEVICE_TYPE_*` enum values (from `vulkan.h`). -/
def VK_PHYSICAL_DEVICE_TYPE_OTHER : Nat := 0
def VK_PHYSICAL_DEVICE_TYPE_INTEGRATED_GPU : Nat := 1
def VK_PHYSICAL_DEVICE_TYPE_DISCRETE_GPU : Nat := 2
def VK_PHYSICAL_DEVICE_TYPE_VIRTUAL_GPU : Nat := 3
def VK_PHYSICAL_DEVICE_TYPE_CPU : Nat := 4

/-- Embedding of `VkPhysicalDeviceTypeStr` (vkinfo.cpp lines 262-277): a
`switch` over the known device types with a `default:` placeholder. -/
def VkPhysicalDeviceTypeStr (type : Nat) : String :=
  if type = VK_PHYSICAL_DEVICE_TYPE_OTHER then "OTHER"
  else if type = VK_PHYSICAL_DEVICE_TYPE_INTEGRATED_GPU then "INTEGRATED_GPU"
  else if type = VK_PHYSICAL_DEVICE_TYPE_DISCRETE_GPU then "DISCRETE_GPU"
  else if type = VK_PHYSICAL_DEVICE_TYPE_VIRTUAL_GPU then "VIRTUAL_GPU"
  else if type = VK_PHYSICAL_DEVICE_TYPE_CPU then "CPU"
  else "<UNKNOWN>"

/-- The `VK_QUEUE_*_BIT` flag values (from `vulkan.h`). -/
def VK_QUEUE_GRAPHICS_BIT : Nat := 1
def VK_QUEUE_COMPUTE_BIT : Nat := 2
def VK_QUEUE_TRANSFER_BIT : Nat := 4
def VK_QUEUE_SPARSE_BINDING_BIT : Nat := 8

/-- Embedding of `VkQueueFlagBitStr` (vkinfo.cpp lines 279-290): a `switch`
over the four known queue flag bits with NO `default:` branch; `none`
stands for falling off the end of the function (undefined behavior in the
C++ source). -/
def VkQueueFlagBitStr (bit : Nat) : Option String :=
  if bit = VK_QUEUE_GRAPHICS_BIT then some "GRAPHICS"
  else if bit = VK_QUEUE_COMPUTE_BIT then some "COMPUTE"
  else if bit = VK_QUEUE_TRANSFER_BIT then some "TRANSFER"
  else if bit = VK_QUEUE_SPARSE_BINDING_BIT then some "SPARSE"
  else none

/-- Lowercase hexadecimal rendering of a `Nat`, as printf `%x`. -/
def hexStr (n : Nat) : String :=
  (Nat.toDigits 16 n).asString

/-- Printf `%04x`: lowercase hex, zero-padded to at least four digits. -/
def hexPad4 (n : Nat) : String :=
  String.mk (List.replicate (4 - (hexStr n).length) '0') ++ hexStr n

/-- Printf `%#x` (alternative form): `0` prints as `0`, anything else with
a `0x` prefix. -/
def hexAlt (n : Nat) : String :=
  if n = 0 then "0" else "0x" ++ hexStr n

/-- Embedding of `PrintExtensions` (vkinfo.cpp lines 292-296). -/
def PrintExtensions (extensions : List VkExtensionProperties) (prefx : String) : String :=
  String.join (extensions.map (fun e =>
    prefx ++ e.extensionName ++ " (v" ++ toString e.specVersion ++ ")\n"))

/-- The text `PrintLayers` emits for the layer at index `i` (the body of
its loop, vkinfo.cpp lines 304-316): the layer line, the description line,
the optional extension header, and the extensions of the layer itself. -/
def layerBlock (prefx : String) (layer : VkLayerProperties)
    (extensions : List VkExtensionProperties) : String :=
  prefx ++ layer.layerName ++ " " ++ toString (ExtractMajorVersion layer.specVersion) ++ "." ++
    toString (ExtractMinorVersion layer.specVersion) ++ "." ++
    toString (ExtractPatchVersion layer.specVersion) ++ "/" ++
    toString layer.implementationVersion ++ "\n" ++
  prefx ++ "  " ++ layer.description ++ "\n" ++
  (if extensions.isEmpty then ""
   else prefx ++ "  Extensions [" ++ toString extensions.length ++ "]:\n") ++
  PrintExtensions extensions (prefx ++ "    ")

/-- Embedding of `PrintLayers` (vkinfo.cpp lines 298-317): for each index
`i` into `layers`, the block for `layers[i]` paired with `extensions[i]`. -/
def PrintLayers (layers : List VkLayerProperties)
    (extensions : List (List VkExtensionProperties)) (prefx : String) : String :=
  String.join ((List.range layers.length).map (fun i =>
    layerBlock prefx (layers.getD i default) (extensions.getD i [])))

/-- The `VK_MEMORY_*` flag values vkinfo decodes (from `vulkan.h`). -/
def VK_MEMORY_HEAP_DEVICE_LOCAL_BIT : Nat := 1
def VK_MEMORY_PROPERTY_DEVICE_LOCAL_BIT : Nat := 1
def VK_MEMORY_PROPERTY_HOST_VISIBLE_BIT : Nat := 2
def VK_MEMORY_PROPERTY_HOST_COHERENT_BIT : Nat := 4
def VK_MEMORY_PROPERTY_HOST_CACHED_BIT : Nat := 8
def VK_MEMORY_PROPERTY_LAZILY_ALLOCATED_BIT : Nat := 16

/-- The heap line of `PrintGpuInfo` (vkinfo.cpp lines 332-339):
`printf("    Heap %u: %" PRIu64 " MiB (0x%" PRIx64 " B) %s\n", ...)` with
the size divided by `0x1000000` and the `DEVICE_LOCAL` annotation. -/
def heapLine (mem : VkPhysicalDeviceMemoryProperties) (heap : Nat) : String :=
  let hp := mem.memoryHeaps.getD heap default
  "    Heap " ++ toString heap ++ ": " ++ toString (hp.size / 0x1000000) ++ " MiB (0x" ++
    hexStr hp.size ++ " B) " ++
    (if hp.flags &&& VK_MEMORY_HEAP_DEVICE_LOCAL_BIT ≠ 0 then "DEVICE_LOCAL" else "") ++ "\n"

/-- The flag annotation of a memory type line (vkinfo.cpp lines 344-355). -/
def memTypeFlagsStr (flags : Nat) : String :=
  (if flags &&& VK_MEMORY_PROPERTY_DEVICE_LOCAL_BIT ≠ 0 then " DEVICE_LOCAL" else "") ++
  (if flags &&& VK_MEMORY_PROPERTY_HOST_VISIBLE_BIT ≠ 0 then " HOST_VISIBLE" else "") ++
  (if flags &&& VK_MEMORY_PROPERTY_HOST_COHERENT_BIT ≠ 0 then " COHERENT" else "") ++
  (if flags &&& VK_MEMORY_PROPERTY_HOST_CACHED_BIT ≠ 0 then " CACHED" else "") ++
  (if flags &&& VK_MEMORY_PROPERTY_LAZILY_ALLOCATED_BIT ≠ 0 then " LAZILY_ALLOCATED" else "")

/-- The memory type line of `PrintGpuInfo` (vkinfo.cpp line 356):
`printf("      Type %u:%s\n", type, ...)`. -/
def memTypeLine (mem : VkPhysicalDeviceMemoryProperties) (type : Nat) : String :=
  "      Type " ++ toString type ++ ":" ++
    memTypeFlagsStr (mem.memoryTypes.getD type default).propertyFlags ++ "\n"

/-- The memory type indices printed under heap `heap`: the inner loop of
`PrintGpuInfo` (vkinfo.cpp lines 341-343) visits every type index in order
and `continue`s past those whose `heapIndex` differs from `heap`. -/
def typesUnderHeap (mem : VkPhysicalDeviceMemoryProperties) (heap : Nat) : List Nat :=
  (List.range mem.memoryTypes.length).filter
    (fun type => (mem.memoryTypes.getD type default).heapIndex = heap)

/-- The lines of the memory section of `PrintGpuInfo` (vkinfo.cpp lines
332-359): for each heap, its heap line followed by the lines of the types
nested under it. -/
def memoryLines (mem : VkPhysicalDeviceMemoryProperties) : List String :=
  (List.range mem.memoryHeaps.length).bind
    (fun heap => heapLine mem heap :: (typesUnderHeap mem heap).map (memTypeLine mem))

/-- The (heap, type) index pairs for which the memory section emits a
`Type` line, in emission order (the index structure of `memoryLines`). -/
def renderedTypeSlots (mem : VkPhysicalDeviceMemoryProperties) : List (Nat × Nat) :=
  (List.range mem.memoryHeaps.length).bind
    (fun heap => (typesUnderHeap mem heap).map (fun type => (heap, type)))

/-- The 4-character queue capability code of `PrintGpuInfo` (vkinfo.cpp
lines 364-369). -/
def queueFlagsStr (flags : Nat) : String :=
  String.mk [
    if flags &&& VK_QUEUE_GRAPHICS_BIT ≠ 0 then 'G' else '_',
    if flags &&& VK_QUEUE_COMPUTE_BIT ≠ 0 then 'C' else '_',
    if flags &&& VK_QUEUE_TRANSFER_BIT ≠ 0 then 'T' else '_',
    if flags &&& VK_QUEUE_SPARSE_BINDING_BIT ≠ 0 then 'S' else '_']

/-- The three lines `PrintGpuInfo` emits per queue family (vkinfo.cpp
lines 361-378). -/
def queueFamilyBlock (family : Nat) (q : VkQueueFamilyProperties) : String :=
  "    Queue Family " ++ toString family ++ ": " ++ toString q.queueCount ++ "x " ++
    queueFlagsStr q.queueFlags ++ "\n" ++
  "      timestampValidBits: " ++ toString q.timestampValidBits ++ "b\n" ++
  "      minImageTransferGranularity: (" ++ toString q.minImageTransferGranularity.width ++
    "," ++ toString q.minImageTransferGranularity.height ++ "," ++
    toString q.minImageTransferGranularity.depth ++ ")\n"

/-- The device properties line of `PrintGpuInfo` (vkinfo.cpp lines
323-330): `printf("  \"%s\" (%s) %u.%u.%u/%#x [%04x:%04x]\n", ...)`. -/
def gpuPropertiesLine (p : VkPhysicalDeviceProperties) : String :=
  "  \x22" ++ p.deviceName ++ "\x22 (" ++ VkPhysicalDeviceTypeStr p.deviceType ++ ") " ++
    toString (ExtractMajorVersion p.apiVersion) ++ "." ++
    toString (ExtractMinorVersion p.apiVersion) ++ "." ++
    toString (ExtractPatchVersion p.apiVersion) ++ "/" ++ hexAlt p.driverVersion ++
    " [" ++ hexPad4 p.vendorID ++ ":" ++ hexPad4 p.deviceID ++ "]\n"

/-- Embedding of `PrintGpuInfo` (vkinfo.cpp lines 319-388). -/
def PrintGpuInfo (info : GpuInfo) : String :=
  gpuPropertiesLine info.properties ++
  String.join (memoryLines info.memory) ++
  String.join ((List.range info.queue_families.length).map
    (fun family => queueFamilyBlock family (info.queue_families.getD family default))) ++
  (if info.extensions.isEmpty then ""
   else "    Extensions [" ++ toString info.extensions.length ++ "]:\n" ++
     PrintExtensions info.extensions "      ") ++
  (if info.layers.isEmpty then ""
   else "    Layers [" ++ toString info.layers.length ++ "]:\n" ++
     PrintLayers info.layers info.layer_extensions "      ")

/-- Embedding of `PrintInfo` (vkinfo.cpp lines 390-403). -/
def PrintInfo (info : VulkanInfo) : String :=
  "Instance Extensions [" ++ toString info.extensions.length ++ "]:\n" ++
  PrintExtensions info.extensions "  " ++
  (if info.layers.isEmpty then ""
   else "Instance Layers [" ++ toString info.layers.length ++ "]:\n" ++
     PrintLayers info.layers info.layer_extensions "  ") ++
  "PhysicalDevices [" ++ toString info.gpus.length ++ "]:\n" ++
  String.join (info.gpus.map PrintGpuInfo)

/-- Embedding of `main` (vkinfo.cpp lines 409-414) as the observable
behavior of one run against the scripted runtime: `some (exit code,
stdout, stderr)`; `none` when the script is too short for a retry loop
(the C program would keep querying forever). -/
def runProgram (rt : Runtime) : Option (Nat × String × String) :=
  match GatherInfo rt with
  | .ok info => some (0, PrintInfo info, "")
  | .error (.die line) => some (1, "", line)
  | .error .hang => none

/-- Number of newline characters in a string (to state "exactly one
diagnostic line"). -/
def countNl (s : String) : Nat :=
  s.data.count '\n'

-- Helper lemmas about buffers and the retry loop.

lemma length_writeBuf {α : Type} (buf data : List α) :
    (writeBuf buf data).length = buf.length := by
  simp [writeBuf]
  omega

lemma length_resizeBuf {α : Type} [Inhabited α] (buf : List α) (n : Nat) :
    (resizeBuf buf n).length = n := by
  simp [resizeBuf]
  omega

lemma retryFetch_run {α : Type} [Inhabited α] (sr : Resp α)
    (hsr : sr.result ≠ VkResult.VK_INCOMPLETE) :
    ∀ (incs extra : List (Resp α)) (buf : List α),
      (∀ r ∈ incs, r.result = VkResult.VK_INCOMPLETE) →
      ∃ res, retryFetch (incs ++ sr :: extra) buf = some (sr.result, res) ∧
        res.length = (incs.map Resp.count).getLastD buf.length := by
  intro incs
  induction incs with
  | nil =>
    intro extra buf _
    refine ⟨writeBuf buf sr.data, ?_, ?_⟩
    · simp [retryFetch, hsr]
    · simp [length_writeBuf]
  | cons r rest ih =>
    intro extra buf hall
    have hr : r.result = VkResult.VK_INCOMPLETE := hall r (by simp)
    obtain ⟨res, h1, h2⟩ :=
      ih extra (resizeBuf (writeBuf buf r.data) r.count) (fun x hx => hall x (by simp [hx]))
    refine ⟨res, ?_, ?_⟩
    · simpa [retryFetch, hr] using h1
    · rw [h2, length_resizeBuf, List.map_cons, List.getLastD_cons]

-- Helper lemmas about `Except` and `mapExcept`.

lemma Except_bind_ok {ε α β : Type} {x : Except ε α} {f : α → Except ε β} {b : β} :
    x.bind f = .ok b ↔ ∃ a, x = .ok a ∧ f a = .ok b := by
  cases x <;> simp [Except.bind]

lemma mapExcept_ok {α β ε : Type} [Inhabited α] [Inhabited β] (f : α → Except ε β) :
    ∀ (xs : List α) (ys : List β), mapExcept f xs = .ok ys →
      ys.length = xs.length ∧
      ∀ i, i < xs.length → f (xs.getD i default) = .ok (ys.getD i default) := by
  intro xs
  induction xs with
  | nil =>
    intro ys h
    simp only [mapExcept] at h
    cases h
    exact ⟨rfl, fun i hi => absurd hi (by simp)⟩
  | cons x xs ih =>
    intro ys h
    simp only [mapExcept] at h
    obtain ⟨y, hy, h⟩ := Except_bind_ok.mp h
    obtain ⟨ys', hys', h⟩ := Except_bind_ok.mp h
    cases h
    obtain ⟨hlen, hget⟩ := ih ys' hys'
    refine ⟨by simp [hlen], fun i hi => ?_⟩
    cases i with
    | zero => simpa using hy
    | succ j =>
      have hj : j < xs.length := by simpa using hi
      simpa using hget j hj

-- Helper lemmas showing decimal renderings contain no newline, so that a
-- `dieLine` is exactly one line of text.

lemma digitChar_ne_nl (k : Nat) : Nat.digitChar k ≠ '\n' := by
  by_cases hk : k < 16
  · have hall : ∀ j, j < 16 → Nat.digitChar j ≠ '\n' := by decide
    exact hall k hk
  · have h0 : k ≠ 0 := by omega
    have h1 : k ≠ 1 := by omega
    have h2 : k ≠ 2 := by omega
    have h3 : k ≠ 3 := by omega
    have h4 : k ≠ 4 := by omega
    have h5 : k ≠ 5 := by omega
    have h6 : k ≠ 6 := by omega
    have h7 : k ≠ 7 := by omega
    have h8 : k ≠ 8 := by omega
    have h9 : k ≠ 9 := by omega
    have h10 : k ≠ 10 := by omega
    have h11 : k ≠ 11 := by omega
    have h12 : k ≠ 12 := by omega
    have h13 : k ≠ 13 := by omega
    have h14 : k ≠ 14 := by omega
    have h15 : k ≠ 15 := by omega
    rw [Nat.digitChar]
    simp only [h0, h1, h2, h3, h4, h5, h6, h7, h8, h9, h10, h11, h12, h13, h14, h15,
      if_false, ite_false]
    decide

lemma toDigitsCore_ne_nl (b : Nat) :
    ∀ (fuel n : Nat) (ds : List Char), (∀ c ∈ ds, c ≠ '\n') →
      ∀ c ∈ Nat.toDigitsCore b fuel n ds, c ≠ '\n' := by
  intro fuel
  induction fuel with
  | zero =>
    intro n ds h c hc
    rw [Nat.toDigitsCore] at hc
    exact h c hc
  | succ f ih =>
    intro n ds h c hc
    rw [Nat.toDigitsCore] at hc
    have hcons : ∀ x ∈ Nat.digitChar (n % b) :: ds, x ≠ '\n' := by
      intro x hx
      rcases List.mem_cons.mp hx with he | hm
      · rw [he]; exact digitChar_ne_nl _
      · exact h x hm
    split at hc
    · exact hcons c hc
    · exact ih _ _ hcons c hc

lemma natRepr_ne_nl (n : Nat) : ∀ c ∈ (Nat.repr n).data, c ≠ '\n' := by
  intro c hc
  have hdata : (Nat.repr n).data = Nat.toDigitsCore 10 (n + 1) n [] := rfl
  rw [hdata] at hc
  exact toDigitsCore_ne_nl 10 (n + 1) n [] (by simp) c hc

lemma intToString_ne_nl (i : Int) : ∀ c ∈ (toString i).data, c ≠ '\n' := by
  cases i with
  | ofNat m => exact natRepr_ne_nl m
  | negSucc m =>
    intro c hc
    have hrepr : toString (Int.negSucc m) = "-" ++ Nat.repr (m + 1) := rfl
    rw [hrepr, String.data_append] at hc
    rcases List.mem_append.mp hc with hm | hm
    · simp only [show ("-" : String).data = ['-'] from rfl] at hm
      simp at hm
      rw [hm]
      decide
    · exact natRepr_ne_nl _ c hm

lemma vkResultStr_ne_nl (r : VkResult) : ∀ c ∈ (vkResultStr r).data, c ≠ '\n' := by
  cases r <;> try decide
  intro ch hch
  exact (show ∀ x ∈ ("<unknown VkResult>" : String).data, x ≠ '\n' by decide) ch hch

lemma countNl_dieLine (proc : String) (r : VkResult) :
    countNl (dieLine proc r) = countNl proc + 1 := by
  rw [dieLine, countNl, countNl]
  rw [String.data_append, String.data_append, String.data_append, String.data_append,
    String.data_append]
  rw [List.count_append, List.count_append, List.count_append, List.count_append,
    List.count_append]
  rw [List.count_eq_zero.mpr (fun hm => vkResultStr_ne_nl r '\n' hm rfl),
    List.count_eq_zero.mpr (fun hm => intToString_ne_nl (vkResultCode r) '\n' hm rfl)]
  have e1 : List.count '\n' (" failed: " : String).data = 0 := rfl
  have e2 : List.count '\n' (" (" : String).data = 0 := rfl
  have e3 : List.count '\n' (")\n" : String).data = 1 := rfl
  rw [e1, e2, e3]

-- Claim C1.

/-- C1: for every enumerate-with-retry sequence (instance/device
extensions, instance/device layers, physical devices - all call sites are
instances of `enumerateWithRetry`): if the runtime reports `VK_INCOMPLETE`
one or more times before reporting `VK_SUCCESS`, the fetch loop terminates
as soon as success is returned (any responses scripted after the success
are never consumed), and the final collected buffer length equals the last
required count reported by the runtime (the count stored by the last
`VK_INCOMPLETE` response). -/
theorem retry_loop_stops_at_success_with_last_count {α : Type} [Inhabited α]
    (proc : String) (c0 : Nat) (incs : List (Resp α)) (sr : Resp α)
    (extra : List (Resp α))
    (hne : incs ≠ [])
    (hincs : ∀ r ∈ incs, r.result = VkResult.VK_INCOMPLETE)
    (hsr : sr.result = VkResult.VK_SUCCESS) :
    (enumerateWithRetry proc
        ⟨(VkResult.VK_SUCCESS, c0), incs ++ sr :: extra⟩).map List.length =
      .ok ((incs.map Resp.count).getLastD c0) := by
  have hne' : sr.result ≠ VkResult.VK_INCOMPLETE := by rw [hsr]; intro h; cases h
  obtain ⟨res, h1, h2⟩ := retryFetch_run sr hne' incs extra (resizeBuf [] c0) hincs
  have hok : enumerateWithRetry proc
      ⟨(VkResult.VK_SUCCESS, c0), incs ++ sr :: extra⟩ = .ok res := by
    unfold enumerateWithRetry
    simp only [h1, hsr]
    simp
  have h2' : res.length = (incs.map Resp.count).getLastD c0 := by
    rw [h2, length_resizeBuf]
  rw [hok]
  simp [Except.map, h2']

/-- Witness for C1: a script that reports incomplete once (with required
count 2), then success; the loop stops at the success even though one more
response is scripted after it, and the collected buffer has length 2. -/
theorem retry_loop_stops_at_success_with_last_count_witness :
    (enumerateWithRetry "vkEnumerateInstanceExtensionProperties"
        (⟨(VkResult.VK_SUCCESS, 0),
          [⟨VkResult.VK_INCOMPLETE, 2, []⟩,
           ⟨VkResult.VK_SUCCESS, 2, [⟨"VK_KHR_surface", 25⟩, ⟨"VK_KHR_android_surface", 6⟩]⟩,
           ⟨VkResult.VK_INCOMPLETE, 9, []⟩]⟩ :
          EnumScript VkExtensionProperties)).map List.length = .ok 2 :=
  retry_loop_stops_at_success_with_last_count
    "vkEnumerateInstanceExtensionProperties" 0
    [⟨VkResult.VK_INCOMPLETE, 2, []⟩]
    ⟨VkResult.VK_SUCCESS, 2, [⟨"VK_KHR_surface", 25⟩, ⟨"VK_KHR_android_surface", 6⟩]⟩
    [⟨VkResult.VK_INCOMPLETE, 9, []⟩]
    (by decide) (by decide) rfl

-- Claim C2.

/-- Queue family properties value used in the C2 counterexample. -/
def qfC2 : VkQueueFamilyProperties := ⟨3, 1, 36, ⟨1, 1, 1⟩⟩

/-- C2 counterexample script: the initial count query reports 1 queue
family, the first data fetch reports the buffer undersized (incomplete,
required count 3), a second fetch would deliver all 3. -/
def qfScriptC2 : QFScript :=
  ⟨1, [⟨.VK_INCOMPLETE, 3, [qfC2]⟩, ⟨.VK_SUCCESS, 3, [qfC2, qfC2, qfC2]⟩]⟩

/-- C2 counterexample: the claim says the count/allocate/fetch/retry
pattern is used identically for the queue-family enumeration, i.e. that
`GatherQueueFamilies` (translated from vkinfo.cpp lines 127-130) agrees
with the retry pattern `GatherQueueFamiliesRetrySpec` (the words of the spec).
On `qfScriptC2` the code collects 1 queue family while the retry pattern
would collect 3, so the claim is false. -/
theorem queue_family_retry_counterexample :
    GatherQueueFamiliesRetrySpec qfScriptC2 ≠ some (GatherQueueFamilies qfScriptC2) := by
  decide

/-- C2 (amended): the count-query/allocate/fetch/retry pattern is used for
extensions, layers and physical devices, but NOT for the queue-family
query: `vkGetPhysicalDeviceQueueFamilyProperties` returns `void`, so
vkinfo performs exactly one count query, one resize and one data fetch -
the result depends only on the first fetch response, never retries, and
always has length equal to the initially reported count. -/
theorem queue_family_single_fetch (c : Nat) (r : Resp VkQueueFamilyProperties)
    (rest : List (Resp VkQueueFamilyProperties)) :
    GatherQueueFamilies ⟨c, r :: rest⟩ = GatherQueueFamilies ⟨c, [r]⟩ ∧
    (GatherQueueFamilies ⟨c, r :: rest⟩).length = c ∧
    (GatherQueueFamilies ⟨c, ([] : List (Resp VkQueueFamilyProperties))⟩).length = c := by
  unfold GatherQueueFamilies
  refine ⟨rfl, ?_, ?_⟩ <;>
    simp [writeBuf, resizeBuf, List.length_take, List.length_replicate] <;> omega

-- Claim C3.

/-- The memory snapshot of the C3 scenario: one heap of 268435456 bytes
flagged device-local, one memory type (device-local | host-visible) on
heap 0. -/
def memC3 : VkPhysicalDeviceMemoryProperties := ⟨[⟨3, 0⟩], [⟨268435456, 1⟩]⟩

/-- C3: the claim says the renderer shows the 268435456-byte device-local
heap as `256 MiB (0x10000000 B) DEVICE_LOCAL`.  The code divides the byte
count by `0x1000000` (= 2^24) rather than by `0x100000` (= 2^20, one MiB),
so it renders the heap line with `16 MiB` and the claimed `256 MiB` text
appears nowhere in the memory section: the claim states the intended
behavior (268435456 bytes ARE 256 MiB, as the own `MiB` unit label of the code
requires) and the code has an off-by-16 unit bug. -/
theorem heap_size_mib_rendering_bug :
    memoryLines memC3 =
      ["    Heap 0: 16 MiB (0x10000000 B) DEVICE_LOCAL\n",
       "      Type 0: DEVICE_LOCAL HOST_VISIBLE\n"] ∧
    List.IsInfix "16 MiB (0x10000000 B) DEVICE_LOCAL".data
      (String.join (memoryLines memC3)).data ∧
    ¬ List.IsInfix "256 MiB".data (String.join (memoryLines memC3)).data := by
  refine ⟨by decide, by decide, by decide⟩

-- Claim C4.

/-- C4: for every triple (major, minor, patch) within the 10/10/12-bit
field widths - boundary values included - packing into a version word and
applying the three extractors of vkinfo.cpp returns the original triple. -/
theorem version_pack_unpack_roundtrip (major minor patch : Nat)
    (h1 : major < 1024) (h2 : minor < 1024) (h3 : patch < 4096) :
    ExtractMajorVersion (makeVersion major minor patch) = major ∧
    ExtractMinorVersion (makeVersion major minor patch) = minor ∧
    ExtractPatchVersion (makeVersion major minor patch) = patch := by
  unfold ExtractMajorVersion ExtractMinorVersion ExtractPatchVersion makeVersion
  have e10 : (0x3FF : Nat) = 2 ^ 10 - 1 := by norm_num
  have e12 : (0xFFF : Nat) = 2 ^ 12 - 1 := by norm_num
  rw [Nat.shiftRight_eq_div_pow, Nat.shiftRight_eq_div_pow, Nat.shiftRight_eq_div_pow,
    e10, e12, Nat.and_pow_two_sub_one_eq_mod, Nat.and_pow_two_sub_one_eq_mod,
    Nat.and_pow_two_sub_one_eq_mod]
  norm_num
  omega

/-- Witness for C4 at the maximal boundary values of every field. -/
theorem version_pack_unpack_roundtrip_witness :
    ExtractMajorVersion (makeVersion 1023 1023 4095) = 1023 ∧
    ExtractMinorVersion (makeVersion 1023 1023 4095) = 1023 ∧
    ExtractPatchVersion (makeVersion 1023 1023 4095) = 4095 :=
  version_pack_unpack_roundtrip 1023 1023 4095 (by decide) (by decide) (by decide)

-- Claim C5.

/-- C5: if the runtime returns a non-success, non-incomplete status from
the first instance-extension count query (reached after the instance-layer
enumeration succeeds, which runs first in `GatherInfo`), the program exits
with status 1, writes nothing to standard output, and writes to standard
error exactly one diagnostic line of the form
`vkEnumerateInstanceExtensionProperties (count) failed: <status-name>
(<status-code>)`. -/
theorem fatal_extension_count_query (rt : Runtime) (ls : List VkLayerProperties)
    (r : VkResult) (c : Nat)
    (hL : enumerateWithRetry "vkEnumerateInstanceLayerProperties" rt.instanceLayers = .ok ls)
    (hcount : (rt.instanceExtensions none).countResp = (r, c))
    (hr1 : r ≠ VkResult.VK_SUCCESS) (hr2 : r ≠ VkResult.VK_INCOMPLETE) :
    runProgram rt =
      some (1, "", dieLine "vkEnumerateInstanceExtensionProperties (count)" r) ∧
    countNl (dieLine "vkEnumerateInstanceExtensionProperties (count)" r) = 1 := by
  have hE : EnumerateInstanceExtensions rt none =
      .error (.die (dieLine "vkEnumerateInstanceExtensionProperties (count)" r)) := by
    unfold EnumerateInstanceExtensions enumerateWithRetry
    rw [hcount]
    simp [hr1]
  have hGI : GatherInfo rt =
      .error (.die (dieLine "vkEnumerateInstanceExtensionProperties (count)" r)) := by
    unfold GatherInfo
    rw [hL, hE]
    simp [Except.bind]
  refine ⟨?_, ?_⟩
  · unfold runProgram
    rw [hGI]
  · rw [countNl_dieLine]
    have hproc : countNl "vkEnumerateInstanceExtensionProperties (count)" = 0 := by decide
    omega

/-- Runtime script for the C5 witness: instance-layer enumeration succeeds
with zero layers, then the instance-extension count query fails with
`VK_ERROR_INITIALIZATION_FAILED`. -/
def rtC5 : Runtime := {
  instanceLayers := ⟨(.VK_SUCCESS, 0), [⟨.VK_SUCCESS, 0, []⟩]⟩
  instanceExtensions := fun _ => ⟨(.VK_ERROR_INITIALIZATION_FAILED, 0), []⟩
  createInstance := fun _ => .VK_SUCCESS
  physicalDevices := ⟨(.VK_SUCCESS, 0), [⟨.VK_SUCCESS, 0, []⟩]⟩
  gpuProperties := fun _ => default
  gpuMemory := fun _ => default
  gpuFeatures := fun _ => default
  gpuQueueFamilies := fun _ => default
  deviceLayers := fun _ => ⟨(.VK_SUCCESS, 0), [⟨.VK_SUCCESS, 0, []⟩]⟩
  deviceExtensions := fun _ _ => ⟨(.VK_SUCCESS, 0), [⟨.VK_SUCCESS, 0, []⟩]⟩
  createDevice := fun _ _ _ => .VK_SUCCESS }

/-- Witness for C5: on `rtC5` the program exits 1 with empty stdout and
the single diagnostic line on stderr. -/
theorem fatal_extension_count_query_witness :
    runProgram rtC5 =
      some (1, "", dieLine "vkEnumerateInstanceExtensionProperties (count)"
        VkResult.VK_ERROR_INITIALIZATION_FAILED) ∧
    countNl (dieLine "vkEnumerateInstanceExtensionProperties (count)"
      VkResult.VK_ERROR_INITIALIZATION_FAILED) = 1 :=
  fatal_extension_count_query rtC5 [] VkResult.VK_ERROR_INITIALIZATION_FAILED 0
    rfl rfl (by decide) (by decide)

-- Claim C6.

/-- C6: in every snapshot built by the gatherer, at instance scope and at
the scope of each device, the layer-extensions collection has the same length
as the layer list, and the extension list at index `i` is exactly what
enumerating extensions for the layer NAME at index `i` yields from the
runtime - the positional pairing the renderer (`PrintLayers`, which pairs
`layers[i]` with `extensions[i]` by construction) then preserves. -/
theorem layer_extensions_positional_alignment (rt : Runtime) (info : VulkanInfo)
    (gpu : Nat) (ginf : GpuInfo) (i j : Nat)
    (hI : GatherInfo rt = .ok info) (hG : GatherGpuInfo rt gpu = .ok ginf)
    (hi : i < info.layers.length) (hj : j < ginf.layers.length) :
    info.layer_extensions.length = info.layers.length ∧
    EnumerateInstanceExtensions rt (some ((info.layers.getD i default).layerName)) =
      .ok (info.layer_extensions.getD i default) ∧
    ginf.layer_extensions.length = ginf.layers.length ∧
    EnumerateDeviceExtensions rt gpu (some ((ginf.layers.getD j default).layerName)) =
      .ok (ginf.layer_extensions.getD j default) := by
  simp only [GatherInfo] at hI
  obtain ⟨layers, hL, hI⟩ := Except_bind_ok.mp hI
  obtain ⟨exts, hE, hI⟩ := Except_bind_ok.mp hI
  obtain ⟨lexts, hLE, hI⟩ := Except_bind_ok.mp hI
  simp only [GatherGpuInfo] at hG
  obtain ⟨dlayers, hDL, hG⟩ := Except_bind_ok.mp hG
  obtain ⟨dexts, hDE, hG⟩ := Except_bind_ok.mp hG
  obtain ⟨dlexts, hDLE, hG⟩ := Except_bind_ok.mp hG
  split at hI
  · exact absurd hI (by simp)
  · obtain ⟨gpus, hGs, hI⟩ := Except_bind_ok.mp hI
    obtain ⟨ginfos, hGIs, hI⟩ := Except_bind_ok.mp hI
    split at hG
    · exact absurd hG (by simp)
    · cases hI
      cases hG
      obtain ⟨hlen1, hget1⟩ := mapExcept_ok _ layers lexts hLE
      obtain ⟨hlen2, hget2⟩ := mapExcept_ok _ dlayers dlexts hDLE
      exact ⟨hlen1, hget1 i hi, hlen2, hget2 j hj⟩

/-- Runtime script for the C6 witness: one instance layer with one
extension of its own, one physical device (handle 7) with one device layer
with one extension of its own. -/
def rtC6 : Runtime := {
  instanceLayers := ⟨(.VK_SUCCESS, 1),
    [⟨.VK_SUCCESS, 1, [⟨"VK_LAYER_inst", 4194306, 2, "an instance layer"⟩]⟩]⟩
  instanceExtensions := fun name =>
    match name with
    | none => ⟨(.VK_SUCCESS, 0), [⟨.VK_SUCCESS, 0, []⟩]⟩
    | some _ => ⟨(.VK_SUCCESS, 1), [⟨.VK_SUCCESS, 1, [⟨"VK_EXT_debug_report", 9⟩]⟩]⟩
  createInstance := fun _ => .VK_SUCCESS
  physicalDevices := ⟨(.VK_SUCCESS, 1), [⟨.VK_SUCCESS, 1, [7]⟩]⟩
  gpuProperties := fun _ => default
  gpuMemory := fun _ => default
  gpuFeatures := fun _ => default
  gpuQueueFamilies := fun _ => ⟨0, [⟨.VK_SUCCESS, 0, []⟩]⟩
  deviceLayers := fun _ => ⟨(.VK_SUCCESS, 1),
    [⟨.VK_SUCCESS, 1, [⟨"VK_LAYER_dev", 4194306, 3, "a device layer"⟩]⟩]⟩
  deviceExtensions := fun _ name =>
    match name with
    | none => ⟨(.VK_SUCCESS, 1), [⟨.VK_SUCCESS, 1, [⟨"VK_KHR_swapchain", 68⟩]⟩]⟩
    | some _ => ⟨(.VK_SUCCESS, 1), [⟨.VK_SUCCESS, 1, [⟨"VK_EXT_dev_layer_ext", 1⟩]⟩]⟩
  createDevice := fun _ _ _ => .VK_SUCCESS }

/-- The device snapshot `GatherGpuInfo` builds from `rtC6` for handle 7. -/
def ginfC6 : GpuInfo :=
  ⟨default, default, default, [],
   [⟨"VK_KHR_swapchain", 68⟩],
   [⟨"VK_LAYER_dev", 4194306, 3, "a device layer"⟩],
   [[⟨"VK_EXT_dev_layer_ext", 1⟩]]⟩

/-- The snapshot `GatherInfo` builds from `rtC6`. -/
def infoC6 : VulkanInfo :=
  ⟨[], [⟨"VK_LAYER_inst", 4194306, 2, "an instance layer"⟩],
   [[⟨"VK_EXT_debug_report", 9⟩]], [ginfC6]⟩

/-- Witness for C6 on `rtC6` at layer index 0 of both scopes. -/
theorem layer_extensions_positional_alignment_witness :
    infoC6.layer_extensions.length = infoC6.layers.length ∧
    EnumerateInstanceExtensions rtC6 (some ((infoC6.layers.getD 0 default).layerName)) =
      .ok (infoC6.layer_extensions.getD 0 default) ∧
    ginfC6.layer_extensions.length = ginfC6.layers.length ∧
    EnumerateDeviceExtensions rtC6 7 (some ((ginfC6.layers.getD 0 default).layerName)) =
      .ok (ginfC6.layer_extensions.getD 0 default) :=
  layer_extensions_positional_alignment rtC6 infoC6 7 ginfC6 0 0
    rfl rfl (by decide) (by decide)

-- Claim C7.

/-- C7: each memory type whose declared heap index is a valid heap is
rendered exactly once, nested under exactly that heap, even when heap
indices are non-contiguous or out of numeric order: the heap
loop visits the declared heap index exactly once, the type appears exactly
once in the type list of the section of that heap, and never in the type list
of the section of any other heap. -/
theorem memory_type_nested_under_declared_heap
    (mem : VkPhysicalDeviceMemoryProperties) (t h : Nat)
    (ht : t < mem.memoryTypes.length)
    (hh : (mem.memoryTypes.getD t default).heapIndex < mem.memoryHeaps.length)
    (hother : h ≠ (mem.memoryTypes.getD t default).heapIndex) :
    (List.range mem.memoryHeaps.length).count
      ((mem.memoryTypes.getD t default).heapIndex) = 1 ∧
    (typesUnderHeap mem ((mem.memoryTypes.getD t default).heapIndex)).count t = 1 ∧
    t ∉ typesUnderHeap mem h := by
  refine ⟨List.count_eq_one_of_mem (List.nodup_range _) (List.mem_range.mpr hh), ?_, ?_⟩
  · rw [typesUnderHeap, List.count_filter (by simp)]
    exact List.count_eq_one_of_mem (List.nodup_range _) (List.mem_range.mpr ht)
  · intro hmem
    rw [typesUnderHeap, List.mem_filter] at hmem
    have hidx : (mem.memoryTypes.getD t default).heapIndex = h := by simpa using hmem.2
    exact hother hidx.symm

/-- The memory snapshot of the C7 witness: heap indices out of numeric
order (type 0 on heap 1, type 1 on heap 0). -/
def memC7 : VkPhysicalDeviceMemoryProperties :=
  ⟨[⟨2, 1⟩, ⟨1, 0⟩], [⟨4096, 1⟩, ⟨8192, 0⟩]⟩

/-- Witness for C7 on `memC7` with type 0 (declared heap 1) against the
other heap 0. -/
theorem memory_type_nested_under_declared_heap_witness :
    (List.range memC7.memoryHeaps.length).count
      ((memC7.memoryTypes.getD 0 default).heapIndex) = 1 ∧
    (typesUnderHeap memC7 ((memC7.memoryTypes.getD 0 default).heapIndex)).count 0 = 1 ∧
    0 ∉ typesUnderHeap memC7 0 :=
  memory_type_nested_under_declared_heap memC7 0 0 (by decide) (by decide) (by decide)

-- Claim C8.

/-- C8: for every device-type enumerant in the known set the label lookup
returns the documented fixed string, any device-type value outside the
known set maps to the `<UNKNOWN>` placeholder without failing, and each
known queue-flag enumerant maps to its documented fixed string. -/
theorem label_lookup_tables (t : Nat) (ht : 4 < t) :
    VkPhysicalDeviceTypeStr VK_PHYSICAL_DEVICE_TYPE_OTHER = "OTHER" ∧
    VkPhysicalDeviceTypeStr VK_PHYSICAL_DEVICE_TYPE_INTEGRATED_GPU = "INTEGRATED_GPU" ∧
    VkPhysicalDeviceTypeStr VK_PHYSICAL_DEVICE_TYPE_DISCRETE_GPU = "DISCRETE_GPU" ∧
    VkPhysicalDeviceTypeStr VK_PHYSICAL_DEVICE_TYPE_VIRTUAL_GPU = "VIRTUAL_GPU" ∧
    VkPhysicalDeviceTypeStr VK_PHYSICAL_DEVICE_TYPE_CPU = "CPU" ∧
    VkPhysicalDeviceTypeStr t = "<UNKNOWN>" ∧
    VkQueueFlagBitStr VK_QUEUE_GRAPHICS_BIT = some "GRAPHICS" ∧
    VkQueueFlagBitStr VK_QUEUE_COMPUTE_BIT = some "COMPUTE" ∧
    VkQueueFlagBitStr VK_QUEUE_TRANSFER_BIT = some "TRANSFER" ∧
    VkQueueFlagBitStr VK_QUEUE_SPARSE_BINDING_BIT = some "SPARSE" := by
  unfold VkPhysicalDeviceTypeStr VkQueueFlagBitStr VK_PHYSICAL_DEVICE_TYPE_OTHER
    VK_PHYSICAL_DEVICE_TYPE_INTEGRATED_GPU VK_PHYSICAL_DEVICE_TYPE_DISCRETE_GPU
    VK_PHYSICAL_DEVICE_TYPE_VIRTUAL_GPU VK_PHYSICAL_DEVICE_TYPE_CPU
    VK_QUEUE_GRAPHICS_BIT VK_QUEUE_COMPUTE_BIT VK_QUEUE_TRANSFER_BIT
    VK_QUEUE_SPARSE_BINDING_BIT
  refine ⟨by norm_num, by norm_num, by norm_num, by norm_num, by norm_num, ?_,
    by norm_num, by norm_num, by norm_num, by norm_num⟩
  have h0 : t ≠ 0 := by omega
  have h1 : t ≠ 1 := by omega
  have h2 : t ≠ 2 := by omega
  have h3 : t ≠ 3 := by omega
  have h4 : t ≠ 4 := by omega
  simp [h0, h1, h2, h3, h4]

/-- Witness for C8 at the unknown device-type value 7. -/
theorem label_lookup_tables_witness :
    VkPhysicalDeviceTypeStr VK_PHYSICAL_DEVICE_TYPE_OTHER = "OTHER" ∧
    VkPhysicalDeviceTypeStr VK_PHYSICAL_DEVICE_TYPE_INTEGRATED_GPU = "INTEGRATED_GPU" ∧
    VkPhysicalDeviceTypeStr VK_PHYSICAL_DEVICE_TYPE_DISCRETE_GPU = "DISCRETE_GPU" ∧
    VkPhysicalDeviceTypeStr VK_PHYSICAL_DEVICE_TYPE_VIRTUAL_GPU = "VIRTUAL_GPU" ∧
    VkPhysicalDeviceTypeStr VK_PHYSICAL_DEVICE_TYPE_CPU = "CPU" ∧
    VkPhysicalDeviceTypeStr 7 = "<UNKNOWN>" ∧
    VkQueueFlagBitStr VK_QUEUE_GRAPHICS_BIT = some "GRAPHICS" ∧
    VkQueueFlagBitStr VK_QUEUE_COMPUTE_BIT = some "COMPUTE" ∧
    VkQueueFlagBitStr VK_QUEUE_TRANSFER_BIT = some "TRANSFER" ∧
    VkQueueFlagBitStr VK_QUEUE_SPARSE_BINDING_BIT = some "SPARSE" :=
  label_lookup_tables 7 (by decide)

-- Claim C9.

/-- C9: for any queue-capability bit value outside the four known bits the
queue-flag label lookup has no defined result: the `switch` has no
`default:` branch, the undefined branch of the embedding (`none`) is reached,
and no placeholder is produced. -/
theorem queue_flag_lookup_no_default (bit : Nat)
    (h1 : bit ≠ VK_QUEUE_GRAPHICS_BIT) (h2 : bit ≠ VK_QUEUE_COMPUTE_BIT)
    (h3 : bit ≠ VK_QUEUE_TRANSFER_BIT) (h4 : bit ≠ VK_QUEUE_SPARSE_BINDING_BIT) :
    VkQueueFlagBitStr bit = none := by
  unfold VkQueueFlagBitStr
  simp [h1, h2, h3, h4]

/-- Witness for C9 at bit value 16 (`VK_QUEUE_PROTECTED_BIT` in later
Vulkan versions, outside the known set of this program). -/
theorem queue_flag_lookup_no_default_witness : VkQueueFlagBitStr 16 = none :=
  queue_flag_lookup_no_default 16 (by decide) (by decide) (by decide) (by decide)

-- Claim C10.

/-- C10: a memory type whose declared heap index is not a valid heap index
is silently omitted from the report - it appears in the rendered
type list of no heap - while every type with a valid heap index is still rendered
exactly once in the section of its own heap. -/
theorem memory_type_invalid_heap_index_omitted
    (mem : VkPhysicalDeviceMemoryProperties) (t u h : Nat)
    (ht : t < mem.memoryTypes.length)
    (hbad : mem.memoryHeaps.length ≤ (mem.memoryTypes.getD t default).heapIndex)
    (hh : h < mem.memoryHeaps.length)
    (hu : u < mem.memoryTypes.length)
    (hu2 : (mem.memoryTypes.getD u default).heapIndex < mem.memoryHeaps.length) :
    t ∉ typesUnderHeap mem h ∧
    (typesUnderHeap mem ((mem.memoryTypes.getD u default).heapIndex)).count u = 1 := by
  constructor
  · intro hmem
    rw [typesUnderHeap, List.mem_filter] at hmem
    have hidx : (mem.memoryTypes.getD t default).heapIndex = h := by simpa using hmem.2
    omega
  · rw [typesUnderHeap, List.count_filter (by simp)]
    exact List.count_eq_one_of_mem (List.nodup_range _) (List.mem_range.mpr hu)

/-- The memory snapshot of the C10 witness: one heap, type 0 valid
(heap 0), type 1 declares nonexistent heap 5. -/
def memC10 : VkPhysicalDeviceMemoryProperties :=
  ⟨[⟨1, 0⟩, ⟨2, 5⟩], [⟨4096, 1⟩]⟩

/-- Witness for C10 on `memC10`: type 1 (declared heap 5) is printed under
no heap, type 0 is still rendered once under heap 0. -/
theorem memory_type_invalid_heap_index_omitted_witness :
    1 ∉ typesUnderHeap memC10 0 ∧
    (typesUnderHeap memC10 ((memC10.memoryTypes.getD 0 default).heapIndex)).count 0 = 1 :=
  memory_type_invalid_heap_index_omitted memC10 1 0 0
    (by decide) (by decide) (by decide) (by decide) (by decide)
